import Mathlib

/-!
Shallow embedding of the route-economics engine of
`modules/route_management.py` (class `RouteEconomics`).

Modelling conventions:
* Python floats are modelled as exact rationals (`ℚ`); decimal literals of
  the source (4.33, 0.08, 3.5, ...) are taken at their decimal value.
* The sqlite database is modelled as an explicit record of row lists; SQL
  point queries become `List.find?`, the `IN (?,?)` airport query becomes a
  filter in table order.
* A Python function that can either return a `{"error": ...}` dict, raise an
  exception, or return a payload is modelled with the `PyResult` type below;
  an unguarded division is modelled by `pyDiv`, which raises
  `ZeroDivisionError` exactly when the denominator is zero.
* The haversine distance uses real-valued trigonometry, so that part of the
  model lives over `ℝ`; `int()` truncation is `pyInt`.
-/

namespace RouteMgmt

/-- Exceptions that the modelled code can raise. -/
inductive PyExn where
  | typeError
  | zeroDivisionError
deriving DecidableEq, Repr

/-- Outcome of a Python call: an uncaught exception, a returned
`{"error": msg}` dict, or a normal payload. -/
inductive PyResult (α : Type) where
  | raised (e : PyExn)
  | errorDict (msg : String)
  | ok (v : α)
deriving DecidableEq, Repr

namespace PyResult

/-- Sequencing: exceptions propagate; an `{"error": ...}` dict is returned
unchanged by the caller (the source checks `if "error" in result`). -/
def bind : PyResult α → (α → PyResult β) → PyResult β
  | .raised e, _ => .raised e
  | .errorDict m, _ => .errorDict m
  | .ok v, f => f v

def map (f : α → β) : PyResult α → PyResult β
  | .raised e => .raised e
  | .errorDict m => .errorDict m
  | .ok v => .ok (f v)

instance : Monad PyResult where
  pure := .ok
  bind := bind
  map := map

end PyResult

/-- Python `/`: raises `ZeroDivisionError` on a zero denominator. -/
def pyDiv (a b : ℚ) : PyResult ℚ :=
  if b = 0 then .raised .zeroDivisionError else .ok (a / b)

/-- Enum `DemandLevel` of the source. -/
inductive DemandLevel where
  | very_low | low | medium | high | very_high
deriving DecidableEq, Repr

/-- The `demand_multipliers` mapping in `calculate_route_revenue`. -/
def demandMultiplier : DemandLevel → ℚ
  | .very_low => 0.3
  | .low => 0.5
  | .medium => 0.7
  | .high => 0.85
  | .very_high => 1.0

/-- A row of the `airports` table (the columns read by the modelled
operations: coordinates and the fee schedule). -/
structure AirportRow where
  icao : String
  latitude : ℚ
  longitude : ℚ
  landing_fee_base : ℚ
  gate_cost_per_hour : ℚ
deriving DecidableEq, Repr

/-- A row of the `routes` table joined (LEFT JOIN) with
`route_extended_data`; the two extended columns used by the modelled
operations are `Option`s, `none` standing for a NULL of the outer join. -/
structure RouteRow where
  id : String
  departure_airport : String
  arrival_airport : String
  distance_nm : ℚ
  competition_level : ℚ
  base_ticket_price : ℚ
  base_demand : Option DemandLevel
  market_fare_business : Option ℚ
deriving DecidableEq, Repr

/-- The `spec_data` JSON blob stored on a fleet row (only the
`route_assignments` key is touched by the modelled code). -/
structure SpecData where
  route_assignments : List String
deriving DecidableEq, Repr

/-- A row of the `fleet` table; `spec_data = none` models a NULL or
malformed JSON blob (the source skips the update in that case). -/
structure FleetRow where
  id : String
  spec_data : Option SpecData
deriving DecidableEq, Repr

/-- A row of the `route_assignments` table (`active` is the INTEGER column,
inserted as `1`). -/
structure AssignmentRow where
  id : String
  route_id : String
  aircraft_id : String
  frequency_weekly : ℚ
  departure_times : List String
  fare_economy : ℚ
  fare_business : ℚ
  load_factor_target : ℚ
  start_date : String
  end_date : Option String
  active : ℕ
deriving DecidableEq, Repr

/-- The sqlite database state used by `RouteEconomics`. -/
structure DB where
  airports : List AirportRow
  routes : List RouteRow
  fleet : List FleetRow
  route_assignments : List AssignmentRow
deriving DecidableEq, Repr

/-- `SELECT ... FROM routes ... WHERE r.id = ?` + `fetchone`. -/
def findRoute (db : DB) (route_id : String) : Option RouteRow :=
  db.routes.find? (fun r => r.id == route_id)

/-- `SELECT ... FROM airports WHERE icao = ?` + `fetchone`. -/
def findAirport (db : DB) (icao : String) : Option AirportRow :=
  db.airports.find? (fun a => a.icao == icao)

/-- `SELECT id FROM fleet WHERE id = ?` + `fetchone`. -/
def findFleet (db : DB) (aircraft_id : String) : Option FleetRow :=
  db.fleet.find? (fun f => f.id == aircraft_id)

/-- Python truthiness of an optional float (`None` and `0` are falsy). -/
def pyTruthyOpt : Option ℚ → Bool
  | none => false
  | some v => decide (v ≠ 0)

/-- Python truthiness of a string (only `""` is falsy). -/
def pyTruthyStr (s : String) : Bool := s ≠ ""

/-- An `aircraft_spec` dict; each field is `none` when the key is absent,
read through `dict.get(key, default)`. -/
structure AircraftSpec where
  cruise_speed : Option ℚ
  fuel_burn_per_hour : Option ℚ
  crew_required : Option ℚ
  base_price : Option ℚ
  passenger_capacity : Option ℚ
deriving DecidableEq, Repr

def AircraftSpec.cruiseSpeedD (s : AircraftSpec) : ℚ := s.cruise_speed.getD 450

def AircraftSpec.fuelBurnD (s : AircraftSpec) : ℚ := s.fuel_burn_per_hour.getD 800

def AircraftSpec.crewRequiredD (s : AircraftSpec) : ℚ := s.crew_required.getD 2

def AircraftSpec.basePriceD (s : AircraftSpec) : ℚ := s.base_price.getD 100

def AircraftSpec.capacityD (s : AircraftSpec) : ℚ := s.passenger_capacity.getD 180

/-- Return dict of `calculate_route_revenue`. -/
structure RevenueResult where
  expected_load_factor : ℚ
  passengers_per_flight : ℚ
  flights_per_month : ℚ
  monthly_passengers : ℚ
  monthly_revenue : ℚ
  competition_impact : ℚ
  price_impact : ℚ
deriving DecidableEq, Repr

/-- Body of `calculate_route_revenue` once the route row has been fetched
(`business_share` is the source's business-class mix parameter,
default 0.15). -/
def revenueCore (r : RouteRow) (aircraft_capacity frequency_weekly fare_economy : ℚ)
    (fare_business : Option ℚ) (business_share : ℚ) : RevenueResult :=
  let base_demand := r.base_demand.getD .medium
  let competition := r.competition_level
  let market_fare := r.base_ticket_price
  let competition_impact := max 0.4 (1.0 - competition * 0.08)
  let price_sensitivity := if fare_economy > 0 then market_fare / fare_economy else 1.0
  let price_impact := min 1.2 (max 0.6 price_sensitivity)
  let expected_load_factor :=
    min 0.95 (max 0.30 (0.75 * demandMultiplier base_demand * competition_impact * price_impact))
  let flights_per_month := frequency_weekly * 4.33
  let passengers_per_flight := aircraft_capacity * expected_load_factor
  let monthly_revenue :=
    if pyTruthyOpt fare_business && decide (business_share > 0) then
      let business_passengers := passengers_per_flight * business_share
      let economy_passengers := passengers_per_flight * (1 - business_share)
      (economy_passengers * fare_economy + business_passengers * fare_business.getD 0) *
        flights_per_month
    else
      passengers_per_flight * fare_economy * flights_per_month
  { expected_load_factor := expected_load_factor
    passengers_per_flight := passengers_per_flight
    flights_per_month := flights_per_month
    monthly_passengers := passengers_per_flight * flights_per_month
    monthly_revenue := monthly_revenue
    competition_impact := competition_impact
    price_impact := price_impact }

/-- `RouteEconomics.calculate_route_revenue`. -/
def calculate_route_revenue (db : DB) (route_id : String)
    (aircraft_capacity frequency_weekly fare_economy : ℚ)
    (fare_business : Option ℚ) (business_share : ℚ) : PyResult RevenueResult :=
  match findRoute db route_id with
  | none => .errorDict "Route not found"
  | some r => .ok (revenueCore r aircraft_capacity frequency_weekly fare_economy
      fare_business business_share)

/-- Return dict of `calculate_operating_costs` (the `per_flight` and
`monthly` sub-dicts plus `flight_time_hours`). -/
structure CostResult where
  fuel_per_flight : ℚ
  crew_per_flight : ℚ
  airport_fees_per_flight : ℚ
  maintenance_per_flight : ℚ
  total_per_flight : ℚ
  monthly_fuel : ℚ
  monthly_crew : ℚ
  monthly_airport_fees : ℚ
  monthly_maintenance : ℚ
  monthly_total : ℚ
  flight_time_hours : ℚ
deriving DecidableEq, Repr

/-- The `SELECT ... FROM airports WHERE icao IN (?, ?)` + `fetchall` of
`calculate_operating_costs`: the rows whose icao is one of the route's two
endpoints, in table order. -/
def airportCostRows (db : DB) (rd : RouteRow) : List AirportRow :=
  db.airports.filter
    (fun a => a.icao == rd.departure_airport || a.icao == rd.arrival_airport)

/-- Body of `calculate_operating_costs` once the route row and (at least)
two airport rows have been fetched. The only unguarded division is
`distance_nm / cruise_speed`. -/
def costsCore (rd : RouteRow) (a0 a1 : AirportRow) (aircraft_spec : AircraftSpec)
    (frequency_weekly : ℚ) : PyResult CostResult := do
  let q ← pyDiv rd.distance_nm aircraft_spec.cruiseSpeedD
  let flight_time_hours := q + 0.5
  let fuel_cost_per_flight := flight_time_hours * aircraft_spec.fuelBurnD * 3.50
  let crew_cost_per_flight := flight_time_hours * 250 * aircraft_spec.crewRequiredD
  let airport_fees_per_flight :=
    a0.landing_fee_base + a1.landing_fee_base +
      a0.gate_cost_per_hour * 2 + a1.gate_cost_per_hour * 2
  let maintenance_cost_per_hour := aircraft_spec.basePriceD * 1000000 * 0.02 / 3000
  let maintenance_cost_per_flight := flight_time_hours * maintenance_cost_per_hour
  let flights_per_month := frequency_weekly * 4.33
  .ok
    { fuel_per_flight := fuel_cost_per_flight
      crew_per_flight := crew_cost_per_flight
      airport_fees_per_flight := airport_fees_per_flight
      maintenance_per_flight := maintenance_cost_per_flight
      total_per_flight := fuel_cost_per_flight + crew_cost_per_flight +
        airport_fees_per_flight + maintenance_cost_per_flight
      monthly_fuel := fuel_cost_per_flight * flights_per_month
      monthly_crew := crew_cost_per_flight * flights_per_month
      monthly_airport_fees := airport_fees_per_flight * flights_per_month
      monthly_maintenance := maintenance_cost_per_flight * flights_per_month
      monthly_total := (fuel_cost_per_flight + crew_cost_per_flight +
        airport_fees_per_flight + maintenance_cost_per_flight) * flights_per_month
      flight_time_hours := flight_time_hours }

/-- `RouteEconomics.calculate_operating_costs`. When the route row is
missing, the source builds the airports query from `route_data[1]` and
`route_data[2]` with `route_data = None`, raising a `TypeError` before its
own `if not route_data` check is reached. -/
def calculate_operating_costs (db : DB) (route_id : String)
    (aircraft_spec : AircraftSpec) (frequency_weekly : ℚ) : PyResult CostResult :=
  match findRoute db route_id with
  | none => .raised .typeError
  | some rd =>
    match airportCostRows db rd with
    | a0 :: a1 :: _ => costsCore rd a0 a1 aircraft_spec frequency_weekly
    | _ => .errorDict "Route or airport data not found"

/-- `RouteEconomics.get_route_distance`. -/
def get_route_distance (db : DB) (route_id : String) : ℚ :=
  match findRoute db route_id with
  | some r => r.distance_nm
  | none => 0

/-- Return dict of `calculate_route_profitability` (flattened). -/
structure ProfitReport where
  monthly_revenue : ℚ
  revenue_per_passenger : ℚ
  load_factor : ℚ
  monthly_passengers : ℚ
  flights_per_month : ℚ
  monthly_total : ℚ
  cost_per_passenger : ℚ
  monthly_fuel : ℚ
  monthly_crew : ℚ
  monthly_airport_fees : ℚ
  monthly_maintenance : ℚ
  monthly_profit : ℚ
  profit_margin : ℚ
  breakeven_load_factor : ℚ
  roi_monthly : ℚ
  cost_per_available_seat_mile : ℚ
  revenue_per_available_seat_mile : ℚ
deriving DecidableEq, Repr

/-- Tail of `calculate_route_profitability` once revenue and cost data are
in hand; `route_distance` is the (pure, repeated) `get_route_distance`
lookup used by the efficiency metrics. -/
def profitCore (revenue_data : RevenueResult) (cost_data : CostResult)
    (aircraft_spec : AircraftSpec) (route_distance : ℚ) : PyResult ProfitReport := do
  let monthly_revenue := revenue_data.monthly_revenue
  let monthly_costs := cost_data.monthly_total
  let monthly_profit := monthly_revenue - monthly_costs
  let profit_margin :=
    if monthly_revenue > 0 then monthly_profit / monthly_revenue * 100 else 0
  let cost_per_passenger :=
    if revenue_data.monthly_passengers > 0 then
      monthly_costs / revenue_data.monthly_passengers
    else 0
  let revenue_per_passenger :=
    if revenue_data.monthly_passengers > 0 then
      monthly_revenue / revenue_data.monthly_passengers
    else 0
  let fixed_costs_monthly := cost_data.monthly_crew + cost_data.monthly_airport_fees
  let variable_cost_per_passenger :=
    if revenue_data.monthly_passengers > 0 then
      (cost_data.monthly_fuel + cost_data.monthly_maintenance) /
        revenue_data.monthly_passengers
    else 0
  let breakeven_load_factor ←
    if revenue_per_passenger > variable_cost_per_passenger then
      pyDiv fixed_costs_monthly
        (revenue_per_passenger * revenue_data.flights_per_month * aircraft_spec.capacityD -
          variable_cost_per_passenger * revenue_data.flights_per_month *
            aircraft_spec.capacityD)
    else .ok 1.0
  let roi_monthly :=
    if aircraft_spec.base_price.getD 0 > 0 then
      monthly_profit / (aircraft_spec.basePriceD * 1000000 / 12) * 100
    else 0
  let casm ← pyDiv monthly_costs
    (aircraft_spec.capacityD * revenue_data.flights_per_month * route_distance)
  let rasm ← pyDiv monthly_revenue
    (aircraft_spec.capacityD * revenue_data.flights_per_month * route_distance)
  .ok
    { monthly_revenue := monthly_revenue
      revenue_per_passenger := revenue_per_passenger
      load_factor := revenue_data.expected_load_factor
      monthly_passengers := revenue_data.monthly_passengers
      flights_per_month := revenue_data.flights_per_month
      monthly_total := monthly_costs
      cost_per_passenger := cost_per_passenger
      monthly_fuel := cost_data.monthly_fuel
      monthly_crew := cost_data.monthly_crew
      monthly_airport_fees := cost_data.monthly_airport_fees
      monthly_maintenance := cost_data.monthly_maintenance
      monthly_profit := monthly_profit
      profit_margin := profit_margin
      breakeven_load_factor := min 1.0 (max 0.0 breakeven_load_factor)
      roi_monthly := roi_monthly
      cost_per_available_seat_mile := casm
      revenue_per_available_seat_mile := rasm }

/-- `RouteEconomics.calculate_route_profitability`. -/
def calculate_route_profitability (db : DB) (route_id : String)
    (aircraft_spec : AircraftSpec) (frequency_weekly fare_economy : ℚ)
    (fare_business : Option ℚ) (business_share : ℚ) : PyResult ProfitReport := do
  let revenue_data ← calculate_route_revenue db route_id aircraft_spec.capacityD
    frequency_weekly fare_economy fare_business business_share
  let cost_data ← calculate_operating_costs db route_id aircraft_spec frequency_weekly
  profitCore revenue_data cost_data aircraft_spec (get_route_distance db route_id)

/-- `RouteEconomics.assign_aircraft_to_route`; `today` stands for the
`datetime.now()` timestamp used in the new row's id and start date. -/
def assign_aircraft_to_route (db : DB) (route_id aircraft_id : String)
    (frequency_weekly : ℚ) (departure_times : List String)
    (fare_economy : ℚ) (fare_business : Option ℚ) (load_factor_target : ℚ)
    (today : String) : (Bool × String) × DB :=
  if (findRoute db route_id).isNone then
    ((false, "Route not found"), db)
  else if (findFleet db aircraft_id).isNone then
    ((false, "Aircraft not found"), db)
  else if (db.route_assignments.find?
      (fun row => row.aircraft_id == aircraft_id && row.active == 1)).isSome then
    ((false, "Aircraft is already assigned to another route"), db)
  else
    let assignment_id := route_id ++ "_" ++ aircraft_id ++ "_" ++ today
    let newRow : AssignmentRow :=
      { id := assignment_id
        route_id := route_id
        aircraft_id := aircraft_id
        frequency_weekly := frequency_weekly
        departure_times := departure_times
        fare_economy := fare_economy
        fare_business := fare_business.getD 0
        load_factor_target := load_factor_target
        start_date := today
        end_date := none
        active := 1 }
    let fleet' := db.fleet.map (fun f =>
      if f.id == aircraft_id then
        match f.spec_data with
        | some sd =>
          { f with spec_data := some { sd with
              route_assignments := sd.route_assignments ++ [route_id] } }
        | none => f
      else f)
    ((true, "Aircraft " ++ aircraft_id ++ " successfully assigned to route " ++ route_id),
      { db with
          route_assignments := db.route_assignments ++ [newRow]
          fleet := fleet' })

/-- An element of the optimizer's `available_aircraft` list. -/
structure Aircraft where
  id : String
  spec : AircraftSpec
deriving DecidableEq, Repr

/-- The optimizer's `best_config` dict. -/
structure Config where
  frequency_weekly : ℚ
  fare_economy : ℚ
  fare_business : ℚ
  profitability : ProfitReport
deriving DecidableEq, Repr

/-- The optimizer's running best: `best_route`, `best_config`,
`best_profit`. -/
structure Candidate where
  route_id : String
  config : Config
  profit : ℚ
deriving DecidableEq, Repr

/-- One emitted recommendation of `optimize_aircraft_assignment`. -/
structure Recommendation where
  aircraft_id : String
  recommended_route : String
  configuration : Config
  monthly_profit : ℚ
deriving DecidableEq, Repr

/-- The grid iterated per aircraft: routes in list order, then frequencies
7, 14, 21, then price factors 0.85, 0.95, 1.05. -/
def gridCells (available_routes : List String) : List (String × ℚ × ℚ) :=
  available_routes.flatMap (fun rid =>
    ([7, 14, 21] : List ℚ).flatMap (fun frequency =>
      ([0.85, 0.95, 1.05] : List ℚ).map (fun price_factor =>
        (rid, frequency, price_factor))))

/-- One grid cell of the optimizer: fetch the route's market fares
(`continue` when the route is unknown), build the discounted fares, and
call the profitability analyzer (skipping `{"error": ...}` results). -/
def evalCell (db : DB) (aircraft_spec : AircraftSpec) :
    String × ℚ × ℚ → PyResult (Option Candidate)
  | (route_id, frequency, price_factor) =>
    match findRoute db route_id with
    | none => .ok none
    | some r =>
      let market_fare_economy := r.base_ticket_price
      let market_fare_business :=
        if pyTruthyOpt r.market_fare_business then r.market_fare_business.getD 0
        else market_fare_economy * 3.5
      let fare_economy := market_fare_economy * price_factor
      let fare_business := market_fare_business * price_factor
      match calculate_route_profitability db route_id aircraft_spec frequency
        fare_economy (some fare_business) 0.15 with
      | .raised e => .raised e
      | .errorDict _ => .ok none
      | .ok rep =>
        .ok (some
          { route_id := route_id
            config :=
              { frequency_weekly := frequency
                fare_economy := fare_economy
                fare_business := fare_business
                profitability := rep }
            profit := rep.monthly_profit })

/-- The `if monthly_profit > best_profit` update; `none` stands for the
initial `best_profit = -inf`. -/
def stepBest (acc : Option Candidate) (c : Candidate) : Option Candidate :=
  match acc with
  | none => some c
  | some b => if c.profit > b.profit then some c else some b

/-- The per-aircraft grid loop of `optimize_aircraft_assignment`, tracking
the best candidate. -/
def bestConfigFold (db : DB) (aircraft_spec : AircraftSpec) :
    List (String × ℚ × ℚ) → Option Candidate → PyResult (Option Candidate)
  | [], acc => .ok acc
  | cell :: rest, acc =>
    match evalCell db aircraft_spec cell with
    | .raised e => .raised e
    | .errorDict m => .errorDict m
    | .ok r =>
      bestConfigFold db aircraft_spec rest
        (match r with
         | none => acc
         | some c => stepBest acc c)

/-- The candidates the grid loop would evaluate, in iteration order
(cells whose route is unknown or whose profitability call reports an error
contribute nothing). -/
def collectCands (db : DB) (aircraft_spec : AircraftSpec) :
    List (String × ℚ × ℚ) → PyResult (List Candidate)
  | [] => .ok []
  | cell :: rest =>
    match evalCell db aircraft_spec cell with
    | .raised e => .raised e
    | .errorDict m => .errorDict m
    | .ok r =>
      match collectCands db aircraft_spec rest with
      | .raised e => .raised e
      | .errorDict m => .errorDict m
      | .ok l => .ok (match r with | none => l | some c => c :: l)

/-- The `if best_route and best_config` emission for one aircraft. -/
def perAircraft (db : DB) (aircraft : Aircraft) (available_routes : List String) :
    PyResult (List Recommendation) :=
  match bestConfigFold db aircraft.spec (gridCells available_routes) none with
  | .raised e => .raised e
  | .errorDict m => .errorDict m
  | .ok best =>
    .ok (match best with
      | some c =>
        if pyTruthyStr c.route_id then
          [{ aircraft_id := aircraft.id
             recommended_route := c.route_id
             configuration := c.config
             monthly_profit := c.profit }]
        else []
      | none => [])

/-- The aircraft loop of `optimize_aircraft_assignment`. -/
def optimizeLoop (db : DB) :
    List Aircraft → List String → PyResult (List Recommendation)
  | [], _ => .ok []
  | a :: rest, available_routes => do
    let r1 ← perAircraft db a available_routes
    let r2 ← optimizeLoop db rest available_routes
    .ok (r1 ++ r2)

/-- Stable insertion of a recommendation into a profit-descending list
(models Python's stable `sort(..., reverse=True)`). -/
def insertDesc (x : Recommendation) : List Recommendation → List Recommendation
  | [] => [x]
  | y :: rest =>
    if y.monthly_profit < x.monthly_profit then x :: y :: rest
    else y :: insertDesc x rest

/-- Stable sort by `monthly_profit`, descending. -/
def sortDesc : List Recommendation → List Recommendation
  | [] => []
  | x :: rest => insertDesc x (sortDesc rest)

/-- `RouteEconomics.optimize_aircraft_assignment`. -/
def optimize_aircraft_assignment (db : DB) (available_aircraft : List Aircraft)
    (available_routes : List String) : PyResult (List Recommendation) :=
  (optimizeLoop db available_aircraft available_routes).map sortDesc

/-- The `major_airports` reference table inserted by `load_airport_data`
(the columns read by the modelled operations: icao, coordinates, fee
schedule). -/
def majorAirports : List AirportRow :=
  [⟨"KJFK", 40.6398, -73.7789, 850, 45⟩,
   ⟨"KLAX", 33.9425, -118.4081, 780, 42⟩,
   ⟨"KORD", 41.9742, -87.9073, 720, 38⟩,
   ⟨"KATL", 33.6407, -84.4277, 650, 35⟩,
   ⟨"KDEN", 39.8561, -104.6737, 580, 32⟩,
   ⟨"KMIA", 25.7959, -80.2870, 620, 40⟩,
   ⟨"KSEA", 47.4502, -122.3088, 560, 35⟩,
   ⟨"KPHX", 33.4373, -112.0078, 520, 30⟩,
   ⟨"EGLL", 51.4700, -0.4543, 950, 55⟩,
   ⟨"LFPG", 49.0097, 2.5479, 820, 48⟩,
   ⟨"EDDF", 50.0379, 8.5622, 780, 45⟩,
   ⟨"RJTT", 35.7653, 140.3864, 1200, 60⟩,
   ⟨"WSSS", 1.3644, 103.9915, 650, 38⟩,
   ⟨"OMDB", 25.2532, 55.3657, 580, 42⟩,
   ⟨"KBOS", 42.3656, -71.0096, 480, 28⟩,
   ⟨"KDCA", 38.8512, -77.0402, 520, 32⟩,
   ⟨"KLAS", 36.0840, -115.1537, 450, 25⟩,
   ⟨"KMCO", 28.4312, -81.3081, 380, 22⟩,
   ⟨"KSFO", 37.6213, -122.3790, 680, 38⟩]

/-- Database state right after `init_database` + `load_airport_data` on a
fresh file: the airport reference table is loaded, everything else empty. -/
def airportsDB : DB :=
  { airports := majorAirports, routes := [], fleet := [], route_assignments := [] }

/-- Python `int()` applied to a real value: truncation toward zero. -/
noncomputable def pyInt (x : ℝ) : ℤ :=
  if 0 ≤ x then ⌊x⌋ else ⌈x⌉

/-- `math.radians`. -/
noncomputable def radians (x : ℚ) : ℝ := (x : ℝ) * (Real.pi / 180)

/-- The haversine intermediate
`a = sin(dlat/2)**2 + cos(lat1) * cos(lat2) * sin(dlon/2)**2`
(arguments already in radians). -/
noncomputable def havA (lat1 lon1 lat2 lon2 : ℝ) : ℝ :=
  Real.sin ((lat2 - lat1) / 2) ^ 2 +
    Real.cos lat1 * Real.cos lat2 * Real.sin ((lon2 - lon1) / 2) ^ 2

/-- The haversine computation of `calculate_distance` on two resolved
coordinate pairs: `c = 2 * asin(sqrt(a))`, `int(3440.065 * c)`. -/
noncomputable def haversineNm (lat1q lon1q lat2q lon2q : ℚ) : ℤ :=
  pyInt (3440.065 *
    (2 * Real.arcsin (Real.sqrt
      (havA (radians lat1q) (radians lon1q) (radians lat2q) (radians lon2q)))))

/-- `RouteEconomics.calculate_distance`: great-circle distance in nautical
miles, `0` when either airport row is missing. -/
noncomputable def calculate_distance (db : DB) (origin_icao dest_icao : String) : ℤ :=
  match findAirport db origin_icao, findAirport db dest_icao with
  | some o, some d => haversineNm o.latitude o.longitude d.latitude d.longitude
  | _, _ => 0

/-- Number of active assignment rows an aircraft holds (the invariant
metric of the one-active-assignment-per-aircraft property). -/
def countActive (db : DB) (aircraft_id : String) : ℕ :=
  (db.route_assignments.filter
    (fun row => row.aircraft_id == aircraft_id && row.active == 1)).length

/-- Modelled from the spec wording: break-even load factor as the ratio of
monthly fixed costs to the revenue-minus-variable-cost contribution over
all available seats, clamped to `[0, 1]`, with `1.0` in the degenerate case
where revenue per passenger does not exceed variable cost per passenger. -/
def breakevenSpecFormula (fixed rpp vcpp fpm cap : ℚ) : ℚ :=
  if rpp ≤ vcpp then 1
  else min 1 (max 0 (fixed / ((rpp - vcpp) * fpm * cap)))

/-- First-maximum of a candidate list: the earliest candidate whose profit
is not exceeded by any other (spec notion for the optimizer's strict
greater-than tie-breaking). -/
def firstMax : List Candidate → Option Candidate
  | [] => none
  | c :: rest =>
    match firstMax rest with
    | none => some c
    | some m => if m.profit > c.profit then some m else some c

/-- Scenario-A-style aircraft spec: capacity 180, cruise 470 kt, fuel burn
800 gal/h, crew 2, no capital value supplied. -/
def specA : AircraftSpec :=
  { cruise_speed := some 470
    fuel_burn_per_hour := some 800
    crew_required := some 2
    base_price := none
    passenger_capacity := some 180 }

/-- Scenario-A-style route: KJFK → KMCO, 950 nm, demand `high`,
competition 3, market fares 250 / 875. -/
def routeA : RouteRow :=
  { id := "RA"
    departure_airport := "KJFK"
    arrival_airport := "KMCO"
    distance_nm := 950
    competition_level := 3
    base_ticket_price := 250
    base_demand := some .high
    market_fare_business := some 875 }

/-- Database with the airport reference table and the Scenario-A route. -/
def dbA : DB :=
  { airports := majorAirports, routes := [routeA], fleet := [], route_assignments := [] }

/-- Route with no competition and market fare 100, extended data missing
(defaults apply). -/
def routeC4 : RouteRow :=
  { id := "R4"
    departure_airport := "KJFK"
    arrival_airport := "KMCO"
    distance_nm := 950
    competition_level := 0
    base_ticket_price := 100
    base_demand := none
    market_fare_business := none }

/-- Database for the pricing counterexamples. -/
def dbC4 : DB :=
  { airports := majorAirports, routes := [routeC4], fleet := [], route_assignments := [] }

/-- Route whose market fare (10) is far too low to cover costs: every
frequency/price-factor combination is unprofitable for `specA`. -/
def routeC2 : RouteRow :=
  { id := "R1"
    departure_airport := "KJFK"
    arrival_airport := "KMCO"
    distance_nm := 950
    competition_level := 0
    base_ticket_price := 10
    base_demand := none
    market_fare_business := none }

/-- Database for the optimizer scenarios. -/
def dbC2 : DB :=
  { airports := majorAirports, routes := [routeC2], fleet := [], route_assignments := [] }

/-- The single idle aircraft handed to the optimizer scenarios. -/
def acC2 : Aircraft := { id := "AC1", spec := specA }

/-- The optimizer's best candidate on `dbC2` with the single route `R1`:
frequency 7, price factor 0.85 (the first of the three equal-profit price
factors at frequency 7), with a strictly negative monthly profit. -/
def bestC2 : Candidate :=
  { route_id := "R1"
    config :=
      { frequency_weekly := 7
        fare_economy := 17/2
        fare_business := 119/4
        profitability :=
          { monthly_revenue := 6301449/160
            revenue_per_passenger := 187/16
            load_factor := 21/34
            monthly_passengers := 572859/170
            flights_per_month := 3031/100
            monthly_total := 809516449/2350
            cost_per_passenger := 4540343/44415
            monthly_fuel := 10056858/47
            monthly_crew := 3591735/94
            monthly_airport_fees := 1033571/25
            monthly_maintenance := 2394490/47
            monthly_profit := -11471422669/37600
            profit_margin := -75693980/97713
            breakeven_load_factor := 1
            roi_monthly := 0
            cost_per_available_seat_mile := 267079/4018500
            revenue_per_available_seat_mile := 231/30400 } }
    profit := -11471422669/37600 }

/-- An active assignment row binding aircraft `AC1` to route `R1`. -/
def rowW : AssignmentRow :=
  { id := "A0"
    route_id := "R1"
    aircraft_id := "AC1"
    frequency_weekly := 7
    departure_times := []
    fare_economy := 100
    fare_business := 0
    load_factor_target := 0.8
    start_date := "2025-01-01"
    end_date := none
    active := 1 }

/-- Database in which `AC1` already holds an active assignment. -/
def dbW : DB :=
  { airports := []
    routes := [routeC2]
    fleet := [{ id := "AC1", spec_data := none }]
    route_assignments := [rowW] }

@[simp] theorem pyResult_ok_bind (v : α) (f : α → PyResult β) :
    (PyResult.ok v >>= f) = f v := rfl

@[simp] theorem pyResult_raised_bind (e : PyExn) (f : α → PyResult β) :
    ((PyResult.raised e : PyResult α) >>= f) = .raised e := rfl

@[simp] theorem pyResult_errorDict_bind (m : String) (f : α → PyResult β) :
    ((PyResult.errorDict m : PyResult α) >>= f) = .errorDict m := rfl

@[simp] theorem pyResult_map_ok (f : α → β) (v : α) :
    (PyResult.ok v).map f = .ok (f v) := rfl

@[simp] theorem pyResult_map_raised (f : α → β) (e : PyExn) :
    (PyResult.raised e : PyResult α).map f = .raised e := rfl

@[simp] theorem pyResult_map_errorDict (f : α → β) (m : String) :
    (PyResult.errorDict m : PyResult α).map f = .errorDict m := rfl

@[simp] theorem pyDiv_ok {b : ℚ} (a : ℚ) (h : b ≠ 0) :
    pyDiv a b = .ok (a / b) := by simp [pyDiv, h]

@[simp] theorem pyDiv_zero (a : ℚ) : pyDiv a 0 = .raised .zeroDivisionError := by
  simp [pyDiv]

theorem havA_symm (x1 y1 x2 y2 : ℝ) : havA x1 y1 x2 y2 = havA x2 y2 x1 y1 := by
  unfold havA
  have e1 : Real.sin ((x1 - x2) / 2) = -Real.sin ((x2 - x1) / 2) := by
    rw [show (x1 - x2) / 2 = -((x2 - x1) / 2) by ring, Real.sin_neg]
  have e2 : Real.sin ((y1 - y2) / 2) = -Real.sin ((y2 - y1) / 2) := by
    rw [show (y1 - y2) / 2 = -((y2 - y1) / 2) by ring, Real.sin_neg]
  rw [e1, e2]; ring

theorem havA_self (x y : ℝ) : havA x y x y = 0 := by
  simp [havA]

theorem haversineNm_symm (la1 lo1 la2 lo2 : ℚ) :
    haversineNm la1 lo1 la2 lo2 = haversineNm la2 lo2 la1 lo1 := by
  unfold haversineNm
  rw [havA_symm]

theorem haversineNm_self (la lo : ℚ) : haversineNm la lo la lo = 0 := by
  unfold haversineNm
  rw [havA_self]
  simp [pyInt]

theorem pyInt_nonneg {x : ℝ} (h : 0 ≤ x) : 0 ≤ pyInt x := by
  simp only [pyInt, if_pos h]
  exact Int.floor_nonneg.mpr h

theorem haversineNm_nonneg (la1 lo1 la2 lo2 : ℚ) :
    0 ≤ haversineNm la1 lo1 la2 lo2 := by
  unfold haversineNm
  apply pyInt_nonneg
  have h1 : (0:ℝ) ≤ Real.arcsin (Real.sqrt
      (havA (radians la1) (radians lo1) (radians la2) (radians lo2))) :=
    Real.arcsin_nonneg.mpr (Real.sqrt_nonneg _)
  positivity

/-- C9: `calculate_distance` is symmetric in its two airport codes, returns
`0` on a repeated code, and always returns a non-negative integer; on the
loaded reference table, a code absent from the table makes the function
return `0` instead of failing fatally. -/
theorem C9_distance_properties :
    (∀ (db : DB) (a b : String),
      calculate_distance db a b = calculate_distance db b a) ∧
    (∀ (db : DB) (a : String), calculate_distance db a a = 0) ∧
    (∀ (db : DB) (a b : String), 0 ≤ calculate_distance db a b) ∧
    (∀ (a b : String),
      findAirport airportsDB a = none ∨ findAirport airportsDB b = none →
      calculate_distance airportsDB a b = 0) := by
  refine ⟨?_, ?_, ?_, ?_⟩
  · intro db a b
    cases h1 : findAirport db a <;> cases h2 : findAirport db b <;>
      simp [calculate_distance, h1, h2, haversineNm_symm]
  · intro db a
    cases h : findAirport db a <;> simp [calculate_distance, h, haversineNm_self]
  · intro db a b
    cases h1 : findAirport db a <;> cases h2 : findAirport db b <;>
      simp [calculate_distance, h1, h2, haversineNm_nonneg]
  · intro a b h
    rcases h with h | h <;>
      cases h1 : findAirport airportsDB a <;> cases h2 : findAirport airportsDB b <;>
        simp_all [calculate_distance]

/-- Witness for C9: a concrete unknown code resolves to distance `0`. -/
theorem C9_distance_properties_witness :
    calculate_distance airportsDB "QQQQ" "KJFK" = 0 :=
  C9_distance_properties.2.2.2 "QQQQ" "KJFK" (Or.inl (by decide))

/-- C1: when the route id is absent from the routes table,
`calculate_operating_costs` does not return a structured error: it raises a
`TypeError`, because the `None` route row is subscripted to build the
airports query before the function's own `if not route_data` check can run. -/
theorem C1_missing_route_raises (db : DB) (route_id : String)
    (aircraft_spec : AircraftSpec) (frequency_weekly : ℚ)
    (h : findRoute db route_id = none) :
    calculate_operating_costs db route_id aircraft_spec frequency_weekly =
      .raised .typeError := by
  simp [calculate_operating_costs, h]

/-- Witness for C1: a concrete unknown route id raises. -/
theorem C1_missing_route_raises_witness :
    calculate_operating_costs airportsDB "KJFK_KMCO_1" specA 7 =
      .raised .typeError :=
  C1_missing_route_raises airportsDB "KJFK_KMCO_1" specA 7 (by decide)

/-- C5: for a resolvable route and positive capacity, frequency and fare,
the expected load factor returned by `calculate_route_revenue` equals
`0.75 * demand_multiplier * competition_impact * price_impact` clamped to
`[0.30, 0.95]`, with `competition_impact = max(0.4, 1.0 - competition_level * 0.08)`;
in particular the load factor always lies within `[0.30, 0.95]`. -/
theorem C5_load_factor_formula (db : DB) (route_id : String)
    (aircraft_capacity frequency_weekly fare_economy : ℚ)
    (fare_business : Option ℚ) (business_share : ℚ) (r : RouteRow)
    (hr : findRoute db route_id = some r)
    (hcap : 0 < aircraft_capacity) (hfreq : 0 < frequency_weekly)
    (hfare : 0 < fare_economy) :
    ∃ res, calculate_route_revenue db route_id aircraft_capacity frequency_weekly
        fare_economy fare_business business_share = .ok res ∧
      res.competition_impact = max 0.4 (1.0 - r.competition_level * 0.08) ∧
      res.expected_load_factor = min 0.95 (max 0.30
        (0.75 * demandMultiplier (r.base_demand.getD .medium) *
          res.competition_impact * res.price_impact)) ∧
      0.30 ≤ res.expected_load_factor ∧ res.expected_load_factor ≤ 0.95 := by
  refine ⟨revenueCore r aircraft_capacity frequency_weekly fare_economy
    fare_business business_share, by simp [calculate_route_revenue, hr],
    rfl, rfl, ?_, ?_⟩
  · exact le_min (by norm_num) (le_max_left _ _)
  · exact min_le_left _ _

/-- Witness for C5 at the Scenario-A route. -/
theorem C5_load_factor_formula_witness :
    ∃ res, calculate_route_revenue dbA "RA" 180 7 250 (some 875) 0.15 = .ok res ∧
      res.competition_impact = max 0.4 (1.0 - routeA.competition_level * 0.08) ∧
      res.expected_load_factor = min 0.95 (max 0.30
        (0.75 * demandMultiplier (routeA.base_demand.getD .medium) *
          res.competition_impact * res.price_impact)) ∧
      0.30 ≤ res.expected_load_factor ∧ res.expected_load_factor ≤ 0.95 :=
  C5_load_factor_formula dbA "RA" 180 7 250 (some 875) 0.15 routeA (by decide)
    (by norm_num) (by norm_num) (by norm_num)

/-- Counterexample for C4 as stated: with market fare 100, a fare pair
`f1 = 50 > f2 = 0 ≥ 0`, both below the market fare, gives expected load
factor `0.63` at `f1` but only `0.525` at the lower fare `f2 = 0` (the
zero fare falls into the `price_sensitivity = 1.0` guard), so the load
factor at the lower fare is strictly smaller. -/
theorem C4_counterexample :
    ((50:ℚ) > 0 ∧ (0:ℚ) ≥ 0 ∧ (50:ℚ) < routeC4.base_ticket_price ∧
      (0:ℚ) < routeC4.base_ticket_price) ∧
    (calculate_route_revenue dbC4 "R4" 180 7 50 none 0.15).map
      RevenueResult.expected_load_factor = .ok (63/100) ∧
    (calculate_route_revenue dbC4 "R4" 180 7 0 none 0.15).map
      RevenueResult.expected_load_factor = .ok (21/40) ∧
    ¬ ((63:ℚ)/100 ≤ 21/40) := by with_unfolding_all decide

/-- C4 amended: the monotonicity holds once both fares are strictly
positive (and below the market fare): lowering the charged fare does not
lower the expected load factor. -/
theorem C4_price_monotonicity (db : DB) (route_id : String)
    (aircraft_capacity frequency_weekly f1 f2 : ℚ)
    (fare_business : Option ℚ) (business_share : ℚ) (r : RouteRow)
    (hr : findRoute db route_id = some r)
    (h2 : 0 < f2) (h12 : f2 < f1) (h1m : f1 < r.base_ticket_price) :
    ∃ res1 res2,
      calculate_route_revenue db route_id aircraft_capacity frequency_weekly f1
        fare_business business_share = .ok res1 ∧
      calculate_route_revenue db route_id aircraft_capacity frequency_weekly f2
        fare_business business_share = .ok res2 ∧
      res1.expected_load_factor ≤ res2.expected_load_factor := by
  have hf1 : 0 < f1 := h2.trans h12
  have hm : 0 < r.base_ticket_price := hf1.trans h1m
  refine ⟨revenueCore r aircraft_capacity frequency_weekly f1 fare_business
    business_share, revenueCore r aircraft_capacity frequency_weekly f2
    fare_business business_share,
    by simp [calculate_route_revenue, hr], by simp [calculate_route_revenue, hr], ?_⟩
  show min 0.95 (max 0.30 (0.75 * demandMultiplier (r.base_demand.getD .medium) *
      max 0.4 (1.0 - r.competition_level * 0.08) *
      min 1.2 (max 0.6 (if f1 > 0 then r.base_ticket_price / f1 else 1.0)))) ≤
    min 0.95 (max 0.30 (0.75 * demandMultiplier (r.base_demand.getD .medium) *
      max 0.4 (1.0 - r.competition_level * 0.08) *
      min 1.2 (max 0.6 (if f2 > 0 then r.base_ticket_price / f2 else 1.0))))
  rw [if_pos hf1, if_pos h2]
  have hdm : 0 ≤ demandMultiplier (r.base_demand.getD .medium) := by
    cases r.base_demand.getD .medium <;> norm_num [demandMultiplier]
  have hci : (0:ℚ) ≤ max 0.4 (1.0 - r.competition_level * 0.08) :=
    le_trans (by norm_num) (le_max_left _ _)
  have hk : (0:ℚ) ≤ 0.75 * demandMultiplier (r.base_demand.getD .medium) *
      max 0.4 (1.0 - r.competition_level * 0.08) :=
    mul_nonneg (mul_nonneg (by norm_num) hdm) hci
  have hdiv : r.base_ticket_price / f1 ≤ r.base_ticket_price / f2 := by
    rw [div_le_div_iff₀ hf1 h2]
    exact mul_le_mul_of_nonneg_left h12.le hm.le
  have hpi : min 1.2 (max 0.6 (r.base_ticket_price / f1)) ≤
      min 1.2 (max 0.6 (r.base_ticket_price / f2)) :=
    min_le_min le_rfl (max_le_max le_rfl hdiv)
  exact min_le_min le_rfl (max_le_max le_rfl (mul_le_mul_of_nonneg_left hpi hk))

/-- Witness for C4 amended: fares 80 > 40 > 0, both below market fare 100. -/
theorem C4_price_monotonicity_witness :
    ∃ res1 res2,
      calculate_route_revenue dbC4 "R4" 180 7 80 none 0.15 = .ok res1 ∧
      calculate_route_revenue dbC4 "R4" 180 7 40 none 0.15 = .ok res2 ∧
      res1.expected_load_factor ≤ res2.expected_load_factor :=
  C4_price_monotonicity dbC4 "R4" 180 7 80 40 none 0.15 routeC4 (by decide)
    (by norm_num) (by norm_num) (by decide)

/-- Counterexample for C6 as stated: pricing the economy cabin at `0` while
a business fare (875) is supplied yields a strictly positive monthly
revenue (`12030039/32`), not the claimed exact `0`; the load factor is
still clamped below `0.95`. -/
theorem C6_counterexample :
    (calculate_route_revenue dbC4 "R4" 180 7 0 (some 875) 0.15).map
      (fun res => (decide (res.expected_load_factor ≤ 0.95),
        decide (res.monthly_revenue = 0), decide (0 < res.monthly_revenue))) =
      .ok (true, false, true) := by with_unfolding_all decide

/-- C6 amended: with a zero economy fare and no (or zero) business fare —
or a non-positive business mix — the revenue calculation still returns a
load factor clamped to at most `0.95` and a monthly revenue of exactly `0`. -/
theorem C6_zero_fare (db : DB) (route_id : String)
    (aircraft_capacity frequency_weekly : ℚ) (fare_business : Option ℚ)
    (business_share : ℚ) (r : RouteRow)
    (hr : findRoute db route_id = some r)
    (hfb : pyTruthyOpt fare_business = false ∨ ¬ 0 < business_share) :
    ∃ res, calculate_route_revenue db route_id aircraft_capacity frequency_weekly
        0 fare_business business_share = .ok res ∧
      res.expected_load_factor ≤ 0.95 ∧ res.monthly_revenue = 0 := by
  refine ⟨revenueCore r aircraft_capacity frequency_weekly 0 fare_business
    business_share, by simp [calculate_route_revenue, hr], min_le_left _ _, ?_⟩
  show (if pyTruthyOpt fare_business && decide (business_share > 0) then _ else
      aircraft_capacity * _ * 0 * (frequency_weekly * 4.33)) = 0
  rcases hfb with hfb | hfb
  · rw [hfb]
    simp
  · rw [decide_eq_false hfb]
    simp

/-- Witness for C6 amended at the counterexample route, with no business
fare supplied. -/
theorem C6_zero_fare_witness :
    ∃ res, calculate_route_revenue dbC4 "R4" 180 7 0 none 0.15 = .ok res ∧
      res.expected_load_factor ≤ 0.95 ∧ res.monthly_revenue = 0 :=
  C6_zero_fare dbC4 "R4" 180 7 none 0.15 routeC4 (by decide) (Or.inl (by decide))

set_option maxRecDepth 8000

/-- Counterexample for C2 as stated: on `dbC2` every one of the nine
frequency/price-factor cells for aircraft `AC1` and route `R1` evaluates to
a candidate with strictly negative monthly profit, yet
`optimize_aircraft_assignment` still returns a recommendation for `AC1`
(with that negative best profit) instead of omitting the aircraft. -/
theorem C2_counterexample :
    (gridCells ["R1"]).all (fun cell =>
      match evalCell dbC2 specA cell with
      | .ok (some c) => decide (c.profit < 0)
      | _ => false) = true ∧
    (optimize_aircraft_assignment dbC2 [acC2] ["R1"]).map
      (fun recs => recs.map
        (fun rec => (rec.aircraft_id, decide (rec.monthly_profit < 0)))) =
      .ok [("AC1", true)] := by
  constructor
  · with_unfolding_all decide
  · with_unfolding_all decide

/-- C2 amended: whenever the per-aircraft grid loop produces a best
candidate at all (profitable or not) whose route id is truthy, the
optimizer emits a recommendation for the aircraft carrying that candidate —
an aircraft is omitted only when no grid cell resolves to a profitability
report (or the best route id is the empty string). -/
theorem C2_unprofitable_included (db : DB) (a : Aircraft)
    (available_routes : List String) (c : Candidate)
    (hbest : bestConfigFold db a.spec (gridCells available_routes) none =
      .ok (some c))
    (htr : pyTruthyStr c.route_id = true) :
    optimize_aircraft_assignment db [a] available_routes =
      .ok [{ aircraft_id := a.id
             recommended_route := c.route_id
             configuration := c.config
             monthly_profit := c.profit }] := by
  simp [optimize_aircraft_assignment, optimizeLoop, perAircraft, hbest, htr,
    sortDesc, insertDesc]

/-- Witness for C2 amended: the all-unprofitable scenario still yields a
(negative-profit) recommendation for `AC1`. -/
theorem C2_unprofitable_included_witness :
    optimize_aircraft_assignment dbC2 [acC2] ["R1"] =
      .ok [{ aircraft_id := acC2.id
             recommended_route := bestC2.route_id
             configuration := bestC2.config
             monthly_profit := bestC2.profit }] :=
  C2_unprofitable_included dbC2 acC2 ["R1"] bestC2
    (by with_unfolding_all rfl) (by decide)

/-- C10: `assign_aircraft_to_route` preserves the at-most-one-active-
assignment-per-aircraft invariant: when the aircraft already holds an
active assignment row (and the route and aircraft resolve), the call
returns `(False, "Aircraft is already assigned to another route")` and
leaves the database unchanged; and for every aircraft the number of active
assignment rows never grows beyond one through this operation. -/
theorem C10_assign_invariant (db : DB) (route_id aircraft_id : String)
    (frequency_weekly : ℚ) (departure_times : List String) (fare_economy : ℚ)
    (fare_business : Option ℚ) (load_factor_target : ℚ) (today : String) :
    ((db.route_assignments.find?
        (fun row => row.aircraft_id == aircraft_id && row.active == 1)).isSome = true →
      (findRoute db route_id).isNone = false →
      (findFleet db aircraft_id).isNone = false →
      assign_aircraft_to_route db route_id aircraft_id frequency_weekly
        departure_times fare_economy fare_business load_factor_target today =
        ((false, "Aircraft is already assigned to another route"), db)) ∧
    (∀ a, countActive db a ≤ 1 →
      countActive (assign_aircraft_to_route db route_id aircraft_id
        frequency_weekly departure_times fare_economy fare_business
        load_factor_target today).2 a ≤ 1) := by
  constructor
  · intro h1 h2 h3
    simp [assign_aircraft_to_route, h1, h2, h3]
  · intro a ha
    by_cases h2 : (findRoute db route_id).isNone
    · simpa [assign_aircraft_to_route, h2] using ha
    · by_cases h3 : (findFleet db aircraft_id).isNone
      · simpa [assign_aircraft_to_route, h2, h3] using ha
      · by_cases h1 : (db.route_assignments.find?
            (fun row => row.aircraft_id == aircraft_id && row.active == 1)).isSome
        · simpa [assign_aircraft_to_route, h1, h2, h3] using ha
        · have hnone : db.route_assignments.find?
              (fun row => row.aircraft_id == aircraft_id && row.active == 1) = none := by
            cases hf : db.route_assignments.find?
                (fun row => row.aircraft_id == aircraft_id && row.active == 1) with
            | none => rfl
            | some _ => simp [hf] at h1
          have hall := List.find?_eq_none.mp hnone
          simp only [assign_aircraft_to_route, h1, h2, h3, Bool.false_eq_true,
            if_false, if_neg, countActive]
          rw [List.filter_append, List.length_append]
          by_cases haid : aircraft_id = a
          · subst haid
            have hz : (db.route_assignments.filter
                (fun row => row.aircraft_id == aircraft_id && row.active == 1)).length
                = 0 := by
              rw [List.filter_eq_nil_iff.mpr hall]
              rfl
            have hle := List.length_filter_le
              (fun row => row.aircraft_id == aircraft_id && (row.active == 1 : Bool))
              [({ id := route_id ++ "_" ++ aircraft_id ++ "_" ++ today
                  route_id := route_id
                  aircraft_id := aircraft_id
                  frequency_weekly := frequency_weekly
                  departure_times := departure_times
                  fare_economy := fare_economy
                  fare_business := fare_business.getD 0
                  load_factor_target := load_factor_target
                  start_date := today
                  end_date := none
                  active := 1 } : AssignmentRow)]
            simp only [List.length_singleton] at hle
            omega
          · have hz2 : ((aircraft_id == a) : Bool) = false := by
              simp [haid]
            have hz3 : (List.filter
                (fun row => row.aircraft_id == a && row.active == 1)
                [({ id := route_id ++ "_" ++ aircraft_id ++ "_" ++ today
                    route_id := route_id
                    aircraft_id := aircraft_id
                    frequency_weekly := frequency_weekly
                    departure_times := departure_times
                    fare_economy := fare_economy
                    fare_business := fare_business.getD 0
                    load_factor_target := load_factor_target
                    start_date := today
                    end_date := none
                    active := 1 } : AssignmentRow)]).length = 0 := by
              simp [List.filter, hz2]
            unfold countActive at ha
            omega

/-- Witness for C10: on `dbW`, where `AC1` already has an active row, the
call is rejected with the expected message and the state is unchanged. -/
theorem C10_assign_invariant_witness :
    assign_aircraft_to_route dbW "R1" "AC1" 7 [] 100 none 0.8 "20250101" =
      ((false, "Aircraft is already assigned to another route"), dbW) ∧
    countActive (assign_aircraft_to_route dbW "R1" "AC1" 7 [] 100 none 0.8
      "20250101").2 "AC1" ≤ 1 :=
  ⟨(C10_assign_invariant dbW "R1" "AC1" 7 [] 100 none 0.8 "20250101").1
      (by decide) (by decide) (by decide),
   (C10_assign_invariant dbW "R1" "AC1" 7 [] 100 none 0.8 "20250101").2 "AC1"
      (by decide)⟩

theorem calculate_route_revenue_ok (db : DB) (route_id : String)
    (cap freq fe : ℚ) (fb : Option ℚ) (bs : ℚ) (r : RouteRow)
    (hr : findRoute db route_id = some r) :
    calculate_route_revenue db route_id cap freq fe fb bs =
      .ok (revenueCore r cap freq fe fb bs) := by
  simp [calculate_route_revenue, hr]

@[simp] theorem revenueCore_flights_per_month (r : RouteRow)
    (cap freq fe : ℚ) (fb : Option ℚ) (bs : ℚ) :
    (revenueCore r cap freq fe fb bs).flights_per_month = freq * 4.33 := rfl

theorem costsCore_ok (rd : RouteRow) (a0 a1 : AirportRow)
    (spec : AircraftSpec) (freq : ℚ) (h : spec.cruiseSpeedD ≠ 0) :
    ∃ c, costsCore rd a0 a1 spec freq = .ok c := by
  simp only [costsCore, pyDiv, h, if_false, pyResult_ok_bind]
  exact ⟨_, rfl⟩

theorem calculate_operating_costs_ok (db : DB) (route_id : String)
    (spec : AircraftSpec) (freq : ℚ) (r : RouteRow) (a0 a1 : AirportRow)
    (rest : List AirportRow) (hr : findRoute db route_id = some r)
    (hair : airportCostRows db r = a0 :: a1 :: rest)
    (h : spec.cruiseSpeedD ≠ 0) :
    ∃ c, calculate_operating_costs db route_id spec freq = .ok c := by
  obtain ⟨c, hc⟩ := costsCore_ok r a0 a1 spec freq h
  exact ⟨c, by simp [calculate_operating_costs, hr, hair, hc]⟩

theorem breakeven_step_val (rpp vcpp fixed fpm cap : ℚ)
    (hfpm : 0 < fpm) (hcap : 0 < cap) :
    (if rpp > vcpp then
        pyDiv fixed (rpp * fpm * cap - vcpp * fpm * cap)
      else .ok 1.0) =
      .ok (if rpp > vcpp then
        fixed / (rpp * fpm * cap - vcpp * fpm * cap) else 1.0) := by
  split_ifs with h
  · refine pyDiv_ok _ ?_
    have hpos : 0 < (rpp - vcpp) * (fpm * cap) :=
      mul_pos (sub_pos.mpr h) (mul_pos hfpm hcap)
    intro hzero
    nlinarith
  · rfl

theorem profitCore_eval (rv : RevenueResult) (cst : CostResult)
    (spec : AircraftSpec) (dist : ℚ) (hfpm : 0 < rv.flights_per_month)
    (hcap : 0 < spec.capacityD) (hdist : 0 < dist) :
    profitCore rv cst spec dist = .ok
      { monthly_revenue := rv.monthly_revenue
        revenue_per_passenger := if rv.monthly_passengers > 0 then
          rv.monthly_revenue / rv.monthly_passengers else 0
        load_factor := rv.expected_load_factor
        monthly_passengers := rv.monthly_passengers
        flights_per_month := rv.flights_per_month
        monthly_total := cst.monthly_total
        cost_per_passenger := if rv.monthly_passengers > 0 then
          cst.monthly_total / rv.monthly_passengers else 0
        monthly_fuel := cst.monthly_fuel
        monthly_crew := cst.monthly_crew
        monthly_airport_fees := cst.monthly_airport_fees
        monthly_maintenance := cst.monthly_maintenance
        monthly_profit := rv.monthly_revenue - cst.monthly_total
        profit_margin := if rv.monthly_revenue > 0 then
          (rv.monthly_revenue - cst.monthly_total) / rv.monthly_revenue * 100 else 0
        breakeven_load_factor := min 1.0 (max 0.0
          (if (if rv.monthly_passengers > 0 then
                rv.monthly_revenue / rv.monthly_passengers else 0) >
              (if rv.monthly_passengers > 0 then
                (cst.monthly_fuel + cst.monthly_maintenance) /
                  rv.monthly_passengers else 0) then
            (cst.monthly_crew + cst.monthly_airport_fees) /
              ((if rv.monthly_passengers > 0 then
                  rv.monthly_revenue / rv.monthly_passengers else 0) *
                  rv.flights_per_month * spec.capacityD -
                (if rv.monthly_passengers > 0 then
                  (cst.monthly_fuel + cst.monthly_maintenance) /
                    rv.monthly_passengers else 0) *
                  rv.flights_per_month * spec.capacityD)
          else 1.0))
        roi_monthly := if spec.base_price.getD 0 > 0 then
          (rv.monthly_revenue - cst.monthly_total) /
            (spec.basePriceD * 1000000 / 12) * 100 else 0
        cost_per_available_seat_mile := cst.monthly_total /
          (spec.capacityD * rv.flights_per_month * dist)
        revenue_per_available_seat_mile := rv.monthly_revenue /
          (spec.capacityD * rv.flights_per_month * dist) } := by
  have hden : spec.capacityD * rv.flights_per_month * dist ≠ 0 :=
    ne_of_gt (mul_pos (mul_pos hcap hfpm) hdist)
  simp only [profitCore, pyDiv_ok _ hden, pyResult_ok_bind]
  by_cases hmp : rv.monthly_passengers > 0
  · simp only [if_pos hmp]
    by_cases hgt : rv.monthly_revenue / rv.monthly_passengers >
        (cst.monthly_fuel + cst.monthly_maintenance) / rv.monthly_passengers
    · simp only [if_pos hgt]
      have hD : rv.monthly_revenue / rv.monthly_passengers *
            rv.flights_per_month * spec.capacityD -
          (cst.monthly_fuel + cst.monthly_maintenance) / rv.monthly_passengers *
            rv.flights_per_month * spec.capacityD ≠ 0 := by
        intro hz
        nlinarith [mul_pos (sub_pos.mpr hgt) (mul_pos hfpm hcap)]
      rw [pyDiv_ok _ hD]
      rfl
    · simp only [if_neg hgt]
  · simp only [if_neg hmp, if_neg (lt_irrefl (0:ℚ))]

theorem clamp_eq_spec (fixed rpp vcpp fpm cap : ℚ) :
    min 1.0 (max 0.0 (if rpp > vcpp then
      fixed / (rpp * fpm * cap - vcpp * fpm * cap) else 1.0)) =
      breakevenSpecFormula fixed rpp vcpp fpm cap := by
  by_cases h : rpp > vcpp
  · rw [if_pos h]
    unfold breakevenSpecFormula
    rw [if_neg (not_le.mpr h)]
    have hden : rpp * fpm * cap - vcpp * fpm * cap = (rpp - vcpp) * fpm * cap := by
      ring
    rw [hden]
    norm_num
  · rw [if_neg h]
    unfold breakevenSpecFormula
    rw [if_pos (le_of_not_lt h)]
    norm_num

/-- Counterexample for C3 as stated: the Scenario-A route resolves, yet at
the non-negative frequency `0` the profitability call raises
`ZeroDivisionError` (the per-available-seat-mile denominators become zero)
instead of returning a finite report. -/
theorem C3_counterexample :
    (findRoute dbA "RA").isSome = true ∧
    calculate_route_profitability dbA "RA" specA 0 250 (some 875) 0.15 =
      .raised .zeroDivisionError := by
  constructor
  · decide
  · with_unfolding_all rfl

/-- C3 amended: when the route and both endpoint airports resolve and the
aircraft spec and call are non-degenerate (positive cruise speed, capacity,
route distance and frequency), `calculate_route_profitability` returns a
report for every fare pair and business mix; in the exact-rational model
every numeric field of that report is a finite rational — no division by
zero occurs and no exception escapes. -/
theorem C3_profitability_total (db : DB) (route_id : String)
    (spec : AircraftSpec) (freq fe : ℚ) (fb : Option ℚ) (bs : ℚ)
    (r : RouteRow) (a0 a1 : AirportRow) (rest : List AirportRow)
    (hr : findRoute db route_id = some r)
    (hair : airportCostRows db r = a0 :: a1 :: rest)
    (hcs : 0 < spec.cruiseSpeedD) (hcap : 0 < spec.capacityD)
    (hdist : 0 < r.distance_nm) (hfreq : 0 < freq) :
    ∃ rep, calculate_route_profitability db route_id spec freq fe fb bs =
      .ok rep := by
  have hrev := calculate_route_revenue_ok db route_id spec.capacityD freq fe fb bs r hr
  obtain ⟨cst, hcst⟩ :=
    calculate_operating_costs_ok db route_id spec freq r a0 a1 rest hr hair
      (ne_of_gt hcs)
  have hfpm : 0 < (revenueCore r spec.capacityD freq fe fb bs).flights_per_month := by
    rw [revenueCore_flights_per_month]
    exact mul_pos hfreq (by norm_num)
  have hgd : get_route_distance db route_id = r.distance_nm := by
    simp [get_route_distance, hr]
  have heval := profitCore_eval (revenueCore r spec.capacityD freq fe fb bs) cst
    spec (get_route_distance db route_id) hfpm hcap (by rw [hgd]; exact hdist)
  have hfinal : calculate_route_profitability db route_id spec freq fe fb bs =
      profitCore (revenueCore r spec.capacityD freq fe fb bs) cst spec
        (get_route_distance db route_id) := by
    simp only [calculate_route_profitability, hrev, hcst, pyResult_ok_bind]
  rw [hfinal, heval]
  exact ⟨_, rfl⟩

/-- Witness for C3 amended at the Scenario-A call. -/
theorem C3_profitability_total_witness :
    ∃ rep, calculate_route_profitability dbA "RA" specA 7 250 (some 875) 0.15 =
      .ok rep :=
  C3_profitability_total dbA "RA" specA 7 250 (some 875) 0.15 routeA
    ⟨"KJFK", 40.6398, -73.7789, 850, 45⟩ ⟨"KMCO", 28.4312, -81.3081, 380, 22⟩ []
    (by rfl) (by rfl) (by decide) (by decide) (by decide) (by decide)

/-- C7: the break-even load factor of a successfully produced report equals
the ratio of monthly fixed costs (crew plus airport fees) to the
revenue-minus-variable-cost contribution over all available seats, clamped
to `[0, 1]`; and in the degenerate case (revenue per passenger not above
variable cost per passenger) the spec formula — hence the reported value —
is the silently clamped `1.0`, with no distinct degenerate-case signal in
the report. -/
theorem C7_breakeven_formula (db : DB) (route_id : String)
    (spec : AircraftSpec) (freq fe : ℚ) (fb : Option ℚ) (bs : ℚ)
    (r : RouteRow) (a0 a1 : AirportRow) (rest : List AirportRow)
    (hr : findRoute db route_id = some r)
    (hair : airportCostRows db r = a0 :: a1 :: rest)
    (hcs : 0 < spec.cruiseSpeedD) (hcap : 0 < spec.capacityD)
    (hdist : 0 < r.distance_nm) (hfreq : 0 < freq) :
    (∃ rep, calculate_route_profitability db route_id spec freq fe fb bs =
        .ok rep ∧
      rep.breakeven_load_factor = breakevenSpecFormula
        (rep.monthly_crew + rep.monthly_airport_fees)
        rep.revenue_per_passenger
        (if rep.monthly_passengers > 0 then
          (rep.monthly_fuel + rep.monthly_maintenance) / rep.monthly_passengers
          else 0)
        rep.flights_per_month spec.capacityD) ∧
    (∀ fixed rpp vcpp fpm cap : ℚ, rpp ≤ vcpp →
      breakevenSpecFormula fixed rpp vcpp fpm cap = 1) := by
  constructor
  · have hrev := calculate_route_revenue_ok db route_id spec.capacityD freq fe fb bs r hr
    obtain ⟨cst, hcst⟩ :=
      calculate_operating_costs_ok db route_id spec freq r a0 a1 rest hr hair
        (ne_of_gt hcs)
    have hfpm : 0 < (revenueCore r spec.capacityD freq fe fb bs).flights_per_month := by
      rw [revenueCore_flights_per_month]
      exact mul_pos hfreq (by norm_num)
    have hgd : get_route_distance db route_id = r.distance_nm := by
      simp [get_route_distance, hr]
    have heval := profitCore_eval (revenueCore r spec.capacityD freq fe fb bs) cst
      spec (get_route_distance db route_id) hfpm hcap (by rw [hgd]; exact hdist)
    have hfinal : calculate_route_profitability db route_id spec freq fe fb bs =
        profitCore (revenueCore r spec.capacityD freq fe fb bs) cst spec
          (get_route_distance db route_id) := by
      simp only [calculate_route_profitability, hrev, hcst, pyResult_ok_bind]
    rw [hfinal, heval]
    exact ⟨_, rfl, clamp_eq_spec _ _ _ _ _⟩
  · intro fixed rpp vcpp fpm cap h
    unfold breakevenSpecFormula
    rw [if_pos h]

/-- Witness for C7 at the Scenario-A call. -/
theorem C7_breakeven_formula_witness :
    (∃ rep, calculate_route_profitability dbA "RA" specA 7 250 (some 875) 0.15 =
        .ok rep ∧
      rep.breakeven_load_factor = breakevenSpecFormula
        (rep.monthly_crew + rep.monthly_airport_fees)
        rep.revenue_per_passenger
        (if rep.monthly_passengers > 0 then
          (rep.monthly_fuel + rep.monthly_maintenance) / rep.monthly_passengers
          else 0)
        rep.flights_per_month specA.capacityD) ∧
    (∀ fixed rpp vcpp fpm cap : ℚ, rpp ≤ vcpp →
      breakevenSpecFormula fixed rpp vcpp fpm cap = 1) :=
  C7_breakeven_formula dbA "RA" specA 7 250 (some 875) 0.15 routeA
    ⟨"KJFK", 40.6398, -73.7789, 850, 45⟩ ⟨"KMCO", 28.4312, -81.3081, 380, 22⟩ []
    (by rfl) (by rfl) (by decide) (by decide) (by decide) (by decide)

theorem bestConfigFold_eq (db : DB) (spec : AircraftSpec) :
    ∀ (cells : List (String × ℚ × ℚ)) (acc : Option Candidate),
      bestConfigFold db spec cells acc =
        (collectCands db spec cells).map (fun l => l.foldl stepBest acc) := by
  intro cells
  induction cells with
  | nil => intro acc; rfl
  | cons cell rest ih =>
    intro acc
    simp only [bestConfigFold, collectCands]
    cases evalCell db spec cell with
    | raised e => rfl
    | errorDict m => rfl
    | ok r =>
      cases hrest : collectCands db spec rest with
      | raised e => simp [ih, hrest, PyResult.map]
      | errorDict m => simp [ih, hrest, PyResult.map]
      | ok l =>
        cases r with
        | none => simp [ih, hrest, PyResult.map]
        | some c => simp [ih, hrest, PyResult.map, List.foldl]

theorem firstMax_cons_cons (b c : Candidate) (l : List Candidate) :
    firstMax (b :: c :: l) =
      firstMax ((if c.profit > b.profit then c else b) :: l) := by
  cases hm : firstMax l with
  | none =>
    simp only [firstMax, hm]
    split_ifs <;> rfl
  | some m =>
    by_cases hmc : m.profit > c.profit
    · by_cases hcb : c.profit > b.profit
      · have hmb : m.profit > b.profit := lt_trans hcb hmc
        simp only [firstMax, hm, if_pos hmc, if_pos hcb, if_pos hmb]
      · simp only [firstMax, hm, if_pos hmc, if_neg hcb]
    · by_cases hcb : c.profit > b.profit
      · simp only [firstMax, hm, if_neg hmc, if_pos hcb]
      · have hmb : ¬ m.profit > b.profit :=
          not_lt.mpr (le_trans (le_of_not_lt hmc) (le_of_not_lt hcb))
        simp only [firstMax, hm, if_neg hmc, if_neg hcb, if_neg hmb]

theorem foldl_stepBest_firstMax :
    ∀ (l : List Candidate) (b : Candidate),
      l.foldl stepBest (some b) = firstMax (b :: l) := by
  intro l
  induction l with
  | nil => intro b; rfl
  | cons c rest ih =>
    intro b
    have hstep : stepBest (some b) c =
        some (if c.profit > b.profit then c else b) := (apply_ite some _ _ _).symm
    calc List.foldl stepBest (some b) (c :: rest)
        = List.foldl stepBest (stepBest (some b) c) rest := rfl
      _ = List.foldl stepBest (some (if c.profit > b.profit then c else b)) rest := by
          rw [hstep]
      _ = firstMax ((if c.profit > b.profit then c else b) :: rest) := ih _
      _ = firstMax (b :: c :: rest) := (firstMax_cons_cons b c rest).symm

theorem firstMax_cons_ne_none (c : Candidate) (l : List Candidate) :
    firstMax (c :: l) ≠ none := by
  cases h : firstMax l with
  | none => simp [firstMax, h]
  | some m =>
    simp only [firstMax, h]
    split_ifs <;> simp

theorem firstMax_decomp :
    ∀ (l : List Candidate) (b : Candidate), firstMax l = some b →
      ∃ pre post, l = pre ++ b :: post ∧ (∀ c ∈ pre, c.profit < b.profit) ∧
        (∀ c ∈ post, c.profit ≤ b.profit) := by
  intro l
  induction l with
  | nil => intro b h; exact absurd h (by simp [firstMax])
  | cons c rest ih =>
    intro b h
    cases hm : firstMax rest with
    | none =>
      have hrest : rest = [] := by
        cases rest with
        | nil => rfl
        | cons x xs => exact absurd hm (firstMax_cons_ne_none x xs)
      subst hrest
      simp only [firstMax] at h
      have hb : c = b := by injection h
      subst hb
      exact ⟨[], [], rfl, by simp, by simp⟩
    | some m =>
      simp only [firstMax, hm] at h
      by_cases hmc : m.profit > c.profit
      · rw [if_pos hmc] at h
        have hb : m = b := by injection h
        subst hb
        obtain ⟨pre, post, hsplit, hpre, hpost⟩ := ih m hm
        refine ⟨c :: pre, post, by simp [hsplit], ?_, hpost⟩
        intro x hx
        rcases List.mem_cons.mp hx with rfl | hx
        · exact hmc
        · exact hpre x hx
      · rw [if_neg hmc] at h
        have hb : c = b := by injection h
        subst hb
        obtain ⟨pre, post, hsplit, hpre, hpost⟩ := ih m hm
        refine ⟨[], rest, rfl, by simp, ?_⟩
        intro x hx
        rw [hsplit] at hx
        rcases List.mem_append.mp hx with hx | hx
        · exact le_of_lt (lt_of_lt_of_le (hpre x hx) (le_of_not_lt hmc))
        · rcases List.mem_cons.mp hx with rfl | hx
          · exact le_of_not_lt hmc
          · exact le_trans (hpost x hx) (le_of_not_lt hmc)

/-- C8: the per-aircraft grid loop of the optimizer selects a best
configuration by strict greater-than on monthly profit: whenever it settles
on candidate `b`, the grid's candidate list (in route order, then frequency
order 7, 14, 21, then price-factor order 0.85, 0.95, 1.05) splits as
`pre ++ b :: post` where every earlier candidate has strictly smaller
profit and every later one has profit at most `b`'s — so on ties the
first-encountered configuration is kept. -/
theorem C8_optimizer_tie_breaking (db : DB) (spec : AircraftSpec)
    (available_routes : List String) (b : Candidate)
    (hbest : bestConfigFold db spec (gridCells available_routes) none =
      .ok (some b)) :
    ∃ l pre post, collectCands db spec (gridCells available_routes) = .ok l ∧
      l = pre ++ b :: post ∧ (∀ c ∈ pre, c.profit < b.profit) ∧
      (∀ c ∈ post, c.profit ≤ b.profit) := by
  rw [bestConfigFold_eq] at hbest
  cases hl : collectCands db spec (gridCells available_routes) with
  | raised e => rw [hl] at hbest; exact absurd hbest (by simp [PyResult.map])
  | errorDict m => rw [hl] at hbest; exact absurd hbest (by simp [PyResult.map])
  | ok l =>
    rw [hl] at hbest
    simp only [PyResult.map] at hbest
    have hfold : l.foldl stepBest none = some b := by
      injection hbest
    cases l with
    | nil => exact absurd hfold (by simp)
    | cons c rest =>
      have h2 : List.foldl stepBest (some c) rest = some b := hfold
      rw [foldl_stepBest_firstMax] at h2
      obtain ⟨pre, post, h3, h4, h5⟩ := firstMax_decomp (c :: rest) b h2
      exact ⟨c :: rest, pre, post, rfl, h3, h4, h5⟩

/-- Witness for C8 on the all-unprofitable single-route scenario, whose
nine grid candidates include profit ties across the three price factors:
the kept candidate is the first-encountered one. -/
theorem C8_optimizer_tie_breaking_witness :
    ∃ l pre post, collectCands dbC2 specA (gridCells ["R1"]) = .ok l ∧
      l = pre ++ bestC2 :: post ∧ (∀ c ∈ pre, c.profit < bestC2.profit) ∧
      (∀ c ∈ post, c.profit ≤ bestC2.profit) :=
  C8_optimizer_tie_breaking dbC2 specA ["R1"] bestC2 (by with_unfolding_all rfl)

end RouteMgmt
